import Mathlib

/-!
# Verification of the SitzungsterminBot court-watcher core

Shallow embedding of the per-court actor/registry subsystem of the
SitzungsterminBot repository, together with proofs about it.

Conventions used throughout:
* UTC instants (`DateTime<Utc>` in the source) are modelled as `Int` seconds
  since the Unix epoch; `NaiveDate` values are modelled as `Int` days since
  1970-01-01.
* Machine integers of the source (`i64`, `usize`) stay well inside the modelled
  ranges, so plain `Int`/`Nat` are used.
* Fallible code paths (`.expect`, `.unwrap`) are modelled with `Option`; `none`
  stands for the panic.
-/

namespace SitzungsterminBot

/-! ## Civil-calendar arithmetic

The chrono crate's `NaiveDate` arithmetic (used by `is_out_of_date` in
`src/courts/worker.rs` and by the `Europe::Berlin` timezone data of chrono-tz)
is modelled with the standard proleptic-Gregorian conversions between
`(year, month, day)` triples and days since 1970-01-01. -/

/-- Days since 1970-01-01 of the Gregorian date `(y, m, d)`. -/
def daysFromCivil (y m d : Int) : Int :=
  let yAdj : Int := if m ≤ 2 then y - 1 else y
  let era : Int := yAdj.fdiv 400
  let yoe : Int := yAdj - era * 400
  let mp : Int := (m + 9).emod 12
  let doy : Int := (153 * mp + 2).fdiv 5 + d - 1
  let doe : Int := yoe * 365 + yoe.fdiv 4 - yoe.fdiv 100 + doy
  era * 146097 + doe - 719468

/-- Gregorian date `(y, m, d)` of the day `z` (days since 1970-01-01). -/
def civilFromDays (z : Int) : Int × Int × Int :=
  let z' : Int := z + 719468
  let era : Int := z'.fdiv 146097
  let doe : Int := z' - era * 146097
  let yoe : Int := (doe - doe.fdiv 1460 + doe.fdiv 36524 - doe.fdiv 146096).fdiv 365
  let y : Int := yoe + era * 400
  let doy : Int := doe - (365 * yoe + yoe.fdiv 4 - yoe.fdiv 100)
  let mp : Int := (5 * doy + 2).fdiv 153
  let d : Int := doy - (153 * mp + 2).fdiv 5 + 1
  let m : Int := mp + (if mp < 10 then 3 else -9)
  (if m ≤ 2 then y + 1 else y, m, d)

/-- Day of week of epoch day `z`; `0` is Sunday (1970-01-01 was a Thursday). -/
def weekday (z : Int) : Int :=
  (z + 4).emod 7

/-! ## The Europe/Berlin timezone

`chrono_tz::Europe::Berlin` (used by `is_out_of_date`): UTC offset 3600 s
(CET) outside daylight-saving time and 7200 s (CEST) during it.  Under the
EU rule in force since 1996 (and as tabulated by chrono-tz for those years),
DST runs from 01:00 UTC on the last Sunday of March to 01:00 UTC on the last
Sunday of October. -/

/-- Epoch day of the last Sunday of month `m` (March or October, both of
which have 31 days) of year `y`. -/
def lastSunday (y m : Int) : Int :=
  let last := daysFromCivil y m 31
  last - weekday last

/-- UTC instant at which DST starts in year `y`. -/
def dstStartUtc (y : Int) : Int :=
  lastSunday y 3 * 86400 + 3600

/-- UTC instant at which DST ends in year `y`. -/
def dstEndUtc (y : Int) : Int :=
  lastSunday y 10 * 86400 + 3600

/-- Offset (in seconds) of Europe/Berlin local time from UTC at the UTC
instant `t`. -/
def berlinOffset (t : Int) : Int :=
  let y := (civilFromDays (t.fdiv 86400)).1
  if dstStartUtc y ≤ t ∧ t < dstEndUtc y then 7200 else 3600

/-- Local civil time (seconds on the local timeline) of the UTC instant `t`
in Europe/Berlin; models `t.with_timezone(&chrono_tz::Europe::Berlin)`. -/
def berlinLocal (t : Int) : Int :=
  t + berlinOffset t

/-- Resolution of a Berlin local civil time back to a UTC instant, modelling
chrono's `NaiveDateTime::and_local_timezone(...).single()`: the result is
`some u` exactly when precisely one UTC instant `u` maps to the given local
time, and `none` for a gap or an ambiguity (where `.single()` yields no
value and the source's `.expect("Weird DST issues")` panics).  Since the
offset is always 3600 or 7200, the only candidates are `local - 3600` and
`local - 7200`. -/
def localToUtcSingle (localSecs : Int) : Option Int :=
  let c1 := localSecs - 3600
  let c2 := localSecs - 7200
  match berlinOffset c1 == 3600, berlinOffset c2 == 7200 with
  | true, false => some c1
  | false, true => some c2
  | _, _ => none

/-! ## Staleness check (`src/courts/worker.rs`, `is_out_of_date`) -/

/-- `TRESHOLD_TIME` from `src/courts/worker.rs` (08:00), as seconds of day. -/
def TRESHOLD_TIME : Int := 8 * 3600

/-- Embedding of `is_out_of_date` from `src/courts/worker.rs`.  `now` models
the ambient `Utc::now()`.  The result is `none` when the source would panic
(`.expect("Weird DST issues")`; the `checked_sub_days` panic is unreachable
in the unbounded `Int` model). -/
def is_out_of_date (now last_update : Int) : Option Bool :=
  let localNow := berlinLocal now
  let nowTime := localNow.emod 86400
  let nowDate := localNow.fdiv 86400
  let date := if nowTime < TRESHOLD_TIME then nowDate - 1 else nowDate
  match localToUtcSingle (date * 86400 + TRESHOLD_TIME) with
  | some treshold => some (decide (last_update < treshold))
  | none => none

/-- Cutoff instant as worded by the specification (claim C1): "the cutoff is
yesterday's date at 08:00 local time when the current Berlin local
time-of-day is before 08:00, and today's date at 08:00 otherwise, converted
through the zoned civil time to UTC". -/
def mostRecentCutoff (now : Int) : Option Int :=
  let localNow := berlinLocal now
  let timeOfDay := localNow.emod 86400
  let today := localNow.fdiv 86400
  let cutoffDate := if timeOfDay < 8 * 3600 then today - 1 else today
  localToUtcSingle (cutoffDate * 86400 + 8 * 3600)

/-! ## Markdown strings (`src/messages/markdown_string.rs`)

`MarkdownString` keeps the rendered (escaped) text together with the number
of characters the Telegram client will display after parsing
(`len_parsed`).  Only `len_parsed` enters the pagination bounds. -/

/-- The characters escaped by `teloxide::utils::markdown::escape`. -/
def mdEscapeChars : List Char :=
  ['_', '*', '[', ']', '(', ')', '~', '\x60', '>', '#', '+', '-', '=', '|',
   '\x7b', '\x7d', '.', '!']

/-- Escape one character as `teloxide::utils::markdown::escape` does. -/
def mdEscapeChar (c : Char) : List Char :=
  if c ∈ mdEscapeChars then ['\\', c] else [c]

/-- `teloxide::utils::markdown::escape`. -/
def mdEscape (s : String) : String :=
  String.mk (s.data.flatMap mdEscapeChar)

/-- `MarkdownString(String, usize)` from `src/messages/markdown_string.rs`:
the escaped text plus the parsed length. -/
structure MarkdownString where
  text : String
  lenParsed : Nat
deriving DecidableEq, Repr

/-- `MarkdownString::new`. -/
def MarkdownString.new : MarkdownString := ⟨"", 0⟩

/-- `MarkdownString::from_str`: escapes and records the raw length. -/
def MarkdownString.fromStr (s : String) : MarkdownString :=
  ⟨mdEscape s, s.length⟩

/-- `AddAssign<&MarkdownString>`: concatenation of text and parsed length. -/
def MarkdownString.append (a b : MarkdownString) : MarkdownString :=
  ⟨a.text ++ b.text, a.lenParsed + b.lenParsed⟩

/-- `MarkdownString::bold` (`teloxide::utils::markdown::bold` wraps the text
in asterisks; the parsed length is unchanged). -/
def MarkdownString.bold (a : MarkdownString) : MarkdownString :=
  ⟨"*" ++ a.text ++ "*", a.lenParsed⟩

/-- `MarkdownString::code_inline` (the text is wrapped in backticks, the
parsed length is the raw length of the input). -/
def MarkdownString.code_inline (s : String) : MarkdownString :=
  ⟨"\x60" ++ s ++ "\x60", s.length⟩

/-- `MarkdownString::join`: interleaves `sep` between the items, starting
from `MarkdownString::new`. -/
def MarkdownString.join : List MarkdownString → MarkdownString → MarkdownString
  | [], _ => MarkdownString.new
  | x :: xs, sep =>
    xs.foldl (fun acc item => (acc.append sep).append item)
      (MarkdownString.new.append x)

/-! ## Reference filters (`src/messages.rs`, `ReferenceFilter`)

`ReferenceFilter::new` builds the anchored regex
`^ regex::escape(s).replace("\\*", ".*").replace("\\?", ".") $` and
`matches` runs it on the whole reference.  In the escaped pattern every
character of `s` other than `*` and `?` appears as a literal (escape units
never overlap the replaced two-character units), `*` becomes `.*` and `?`
becomes `.`.  With the regex crate's default flags, `.` matches any
character except `'\n'`.  `globMatch` is the denotation of that regex on an
entire string. -/

/-- Work-horse of the glob/regex denotation.  Every step removes at least
one character from the pattern or from the string, so a fuel of
`p.length + s.length + 1` (supplied by the wrapper `globMatch`) can never
run out; the `0`-fuel arm is unreachable. -/
def globMatchFuel : Nat → List Char → List Char → Bool
  | 0, _, _ => false
  | _ + 1, [], [] => true
  | _ + 1, [], _ :: _ => false
  | fuel + 1, '*' :: p, [] => globMatchFuel fuel p []
  | fuel + 1, '*' :: p, d :: s =>
    globMatchFuel fuel p (d :: s) ||
      (decide (d ≠ '\n') && globMatchFuel fuel ('*' :: p) s)
  | _ + 1, '?' :: _, [] => false
  | fuel + 1, '?' :: p, d :: s => decide (d ≠ '\n') && globMatchFuel fuel p s
  | _ + 1, _ :: _, [] => false
  | fuel + 1, c :: p, d :: s => c == d && globMatchFuel fuel p s

/-- Whether the compiled anchored regex accepts the whole string: literal
pattern characters match themselves, `?` (compiled to `.`) matches one
character other than `'\n'`, `*` (compiled to `.*`) matches a run of
characters other than `'\n'`. -/
def globMatch (p s : List Char) : Bool :=
  globMatchFuel (p.length + s.length + 1) p s

/-- `ReferenceFilter::new(pattern).matches(reference)`. -/
def referenceMatches (pattern reference : String) : Bool :=
  globMatch pattern.data reference.data

/-! ## Paginator (`src/messages.rs`) -/

/-- The `Paginator` struct. -/
structure Paginator where
  pages : List (List MarkdownString)
  current_page : List MarkdownString
  current_page_len : Nat
  page_nr_max_len : Nat
  item_limit : Nat
  char_limit : Nat
  join : MarkdownString
deriving Repr

/-- `Paginator::page_nr`. -/
def Paginator.page_nr (k n : Nat) : MarkdownString :=
  MarkdownString.fromStr ("[Nachricht " ++ toString k ++ "/" ++ toString n ++ "]")

/-- `Paginator::new`.  Note that `current_page_len` starts at `0`, not at
`initial_page_len()`. -/
def Paginator.new (item_limit char_limit : Nat) (join : MarkdownString) : Paginator :=
  { pages := []
    current_page := []
    current_page_len := 0
    page_nr_max_len := (Paginator.page_nr 999 999).lenParsed
    item_limit := item_limit
    char_limit := char_limit
    join := join }

/-- `Paginator::initial_page_len`. -/
def Paginator.initial_page_len (p : Paginator) : Nat :=
  p.page_nr_max_len

/-- `Paginator::current_page_len_with`. -/
def Paginator.current_page_len_with (p : Paginator) (new_item : MarkdownString) : Nat :=
  p.current_page_len + p.join.lenParsed + new_item.lenParsed

/-- `Paginator::try_push_to_current_page`; `none` models `Err(item)`. -/
def Paginator.try_push (p : Paginator) (item : MarkdownString) : Option Paginator :=
  let new_page_len := p.current_page_len_with item
  if p.current_page.length < p.item_limit ∧ new_page_len < p.char_limit then
    some { p with current_page := p.current_page ++ [item],
                  current_page_len := new_page_len }
  else
    none

/-- `Paginator::push`; the `Bool` is `true` for `Ok(())` and `false` for
`Err(_)` (item too long even for a fresh page).  On overflow the current
page is closed and the length budget restarts at `initial_page_len()`. -/
def Paginator.push (p : Paginator) (item : MarkdownString) : Paginator × Bool :=
  match p.try_push item with
  | some p' => (p', true)
  | none =>
    let p' := { p with pages := p.pages ++ [p.current_page],
                       current_page := [],
                       current_page_len := p.initial_page_len }
    match p'.try_push item with
    | some p'' => (p'', true)
    | none => (p', false)

/-- `Paginator::get_pages`: closes the running page, then renders every page,
appending a `[Nachricht k/n]` marker when there is more than one page. -/
def Paginator.get_pages (p : Paginator) : List MarkdownString :=
  let pages := p.pages ++ [p.current_page]
  let n := pages.length
  pages.enum.map (fun kp =>
    let content := MarkdownString.join kp.2 p.join
    if n > 1 then (content.append p.join).append (Paginator.page_nr (kp.1 + 1) n)
    else content)

/-! ## Sessions (`src/scraper.rs`, `Session`) -/

/-- `Session` from `src/scraper.rs`.  `date` is a `NaiveDate`, modelled as
days since 1970-01-01; all other fields are plain strings.  Value equality
on all fields (the derived `PartialEq`/`Eq`/`Hash`) drives the set diff. -/
structure Session where
  date : Int
  time : String
  type : String
  lawsuit : String
  hall : String
  reference : String
  note : String
deriving DecidableEq, Repr

/-- `CourtData` from `src/scraper.rs`. -/
structure CourtData where
  full_name : String
  sessions : List Session
deriving DecidableEq, Repr

/-! ## Message rendering (`src/messages.rs`) -/

/-- English weekday name as produced by chrono's `%A`; `0` is Sunday. -/
def weekdayName (w : Int) : String :=
  if w = 0 then "Sunday" else if w = 1 then "Monday" else if w = 2 then "Tuesday"
  else if w = 3 then "Wednesday" else if w = 4 then "Thursday"
  else if w = 5 then "Friday" else "Saturday"

/-- English month name as produced by chrono's `%B`. -/
def monthName (m : Int) : String :=
  if m = 1 then "January" else if m = 2 then "February" else if m = 3 then "March"
  else if m = 4 then "April" else if m = 5 then "May" else if m = 6 then "June"
  else if m = 7 then "July" else if m = 8 then "August" else if m = 9 then "September"
  else if m = 10 then "October" else if m = 11 then "November" else "December"

/-- Two-digit zero padding, as chrono's `%y`. -/
def pad2 (n : Int) : String :=
  if n < 10 then "0" ++ toString n else toString n

/-- chrono's `date.format("%A, %-d. %B %C%y")` used in `session_info`:
full weekday name, unpadded day, full month name, century and two-digit
year. -/
def formatDateLong (z : Int) : String :=
  let ymd := civilFromDays z
  weekdayName (weekday z) ++ ", " ++ toString ymd.2.2 ++ ". " ++
    monthName ymd.2.1 ++ " " ++ toString (ymd.1.fdiv 100) ++ pad2 (ymd.1.emod 100)

/-- `session_info` from `src/messages.rs`. -/
def session_info (entry : Session) : MarkdownString :=
  let datetime := formatDateLong entry.date ++ ", " ++ entry.time
  let byline := if entry.lawsuit = "" then entry.type
    else entry.lawsuit ++ ", " ++ entry.type
  let hall := if entry.hall = "" then "unbekannt" else entry.hall
  let result := (MarkdownString.fromStr datetime).bold
  let result := result.append (MarkdownString.fromStr
    ("\nSitzungssaal " ++ hall ++ "\n" ++ byline ++ "\nAktenzeichen: "))
  let result := result.append (MarkdownString.code_inline entry.reference)
  if entry.note = "" then result
  else result.append (MarkdownString.fromStr ("\nHinweis: " ++ entry.note))

/-- `pages.push(item).unwrap()` on a `Paginator`: `none` models the panic
when the push fails. -/
def pushUnwrap (p : Paginator) (item : MarkdownString) : Option Paginator :=
  match p.push item with
  | (p', true) => some p'
  | (_, false) => none

/-- `pages.push(item).unwrap_or_else(|_| pages.push("[Eintrag zu lang]".into()).unwrap())`:
an item that alone exceeds the limits is replaced by the fixed placeholder;
`none` models the panic when even the placeholder cannot be pushed. -/
def pushOrPlaceholder (p : Paginator) (item : MarkdownString) : Option Paginator :=
  match p.push item with
  | (p', true) => some p'
  | (p', false) => pushUnwrap p' (MarkdownString.fromStr "[Eintrag zu lang]")

/-- `list_sessions_prefix` from `src/messages.rs` (named `header` here). -/
def list_sessions_header (court_data : CourtData) (num_items : Nat) : MarkdownString :=
  let full_name := (MarkdownString.fromStr court_data.full_name).bold
  if num_items = 0 then
    ((MarkdownString.new.append
      (MarkdownString.fromStr "Leider wurden keine Termine f√ºr das ")).append
      full_name).append
      (MarkdownString.fromStr ", die zu deinem Filter passen, gefunden.")
  else if num_items = 1 then
    ((MarkdownString.new.append
      (MarkdownString.fromStr "Es wurde 1 Termin f√ºr das ")).append
      full_name).append (MarkdownString.fromStr " gefunden:")
  else
    ((MarkdownString.new.append
      (MarkdownString.fromStr
        ("Es wurden " ++ toString num_items ++ " Termine f√ºr das "))).append
      full_name).append (MarkdownString.fromStr " gefunden:")

/-- `list_sessions` from `src/messages.rs`.  `none` models the `unwrap`
panics inside; `court_data = none` yields the fixed unavailability text. -/
def list_sessions (court_data : Option CourtData) (reference : String) :
    Option (List MarkdownString) :=
  match court_data with
  | none => some [MarkdownString.fromStr
      "Leider sind keine Informationen f√ºr dieses Gericht verf√ºgbar."]
  | some cd =>
    let items := (cd.sessions.filter
      (fun x => referenceMatches reference x.reference)).map session_info
    do
      let p ← pushUnwrap (Paginator.new 20 4096 (MarkdownString.fromStr "\n\n"))
        (list_sessions_header cd items.length)
      let p ← items.foldlM pushOrPlaceholder p
      pure p.get_pages

/-- The `items` computed inside `sessions_updated`: the new sessions that
match the reference filter and are not contained in the old-session set. -/
def sessions_updated_items (old_sessions new_sessions : List Session)
    (reference_filter : String) : List Session :=
  new_sessions.filter (fun session =>
    referenceMatches reference_filter session.reference &&
      !(old_sessions.contains session))

/-- The notification header built inside `sessions_updated`. -/
def sessions_updated_header (full_court_name subscription_name : String)
    (numItems : Nat) : MarkdownString :=
  let p := MarkdownString.new.append
    (MarkdownString.fromStr "üîî Zu deinem Abo ‚Äû")
  let p := p.append ((MarkdownString.fromStr subscription_name).bold)
  if numItems = 1 then
    p.append (MarkdownString.fromStr
      ("‚Äù (" ++ full_court_name ++
        ") wurde ein neuer Termin ver√∂ffentlicht!"))
  else
    p.append (MarkdownString.fromStr
      ("‚Äù (" ++ full_court_name ++ ") wurden " ++
        toString numItems ++ " neue Termine ver√∂ffentlicht!"))

/-- `sessions_updated` from `src/messages.rs`: renders the notification for
one subscription, or the empty list when no new matching session exists.
`none` models the `unwrap` panics inside. -/
def sessions_updated (old_sessions new_sessions : List Session)
    (full_court_name subscription_name reference_filter : String) :
    Option (List MarkdownString) :=
  let items := (sessions_updated_items old_sessions new_sessions
    reference_filter).map session_info
  if items.length = 0 then some []
  else do
    let p ← pushUnwrap (Paginator.new 20 4096 (MarkdownString.fromStr "\n\n"))
      (sessions_updated_header full_court_name subscription_name items.length)
    let p ← items.foldlM pushOrPlaceholder p
    pure p.get_pages

/-! ## Store retry wrapper (`src/court/database.rs`) -/

/-- `redis::ErrorKind` (the variants named in `get_retry_strategy` plus the
remaining variants of the redis crate, which all fall into the catch-all
arm). -/
inductive ErrorKind where
  | TryAgain | MasterDown | ClusterDown | BusyLoadingError
  | MasterNameNotFoundBySentinel | NoValidReplicasFoundBySentinel
  | ParseError | AuthenticationFailed | ClusterConnectionNotFound | IoError
  | ResponseError | TypeError | ExecAbortError | NoScriptError
  | InvalidClientConfig | Moved | Ask | CrossSlot | ClientError
  | ExtensionError | ReadOnly | NotBusy
deriving DecidableEq, Repr

/-- The `RetryStrategy` enum. -/
inductive RetryStrategy where
  | Reconnect | Retry | NoRetry
deriving DecidableEq, Repr

/-- `get_retry_strategy` from `src/court/database.rs`. -/
def get_retry_strategy (err : ErrorKind) : RetryStrategy :=
  match err with
  | .TryAgain | .MasterDown | .ClusterDown | .BusyLoadingError
  | .MasterNameNotFoundBySentinel | .NoValidReplicasFoundBySentinel =>
    RetryStrategy.Retry
  | .ParseError | .AuthenticationFailed | .ClusterConnectionNotFound
  | .IoError => RetryStrategy.Reconnect
  | _ => RetryStrategy.NoRetry

/-- `MAX_RETRIES` from `Database::execute_with_retry`. -/
def MAX_RETRIES : Nat := 5

/-- Observable behaviour of one `execute_with_retry` call: the returned
result, how many times the operation was executed, the backoff sleeps (in
milliseconds, in order), and how many times the cached connection was
dropped (`Reconnect`). -/
structure RetryTrace (α : Type) where
  result : Except ErrorKind α
  attempts : Nat
  sleepsMs : List Nat
  reconnects : Nat
deriving Repr

/-- The loop of `Database::execute_with_retry`.  `outcomes k` is the outcome
of the `k`-th execution of `get_connection` + `operation` (the environment:
connection state and server behaviour are abstracted into it).  The loop
guard `attempt < MAX_RETRIES` is represented by the remaining-retries
counter `fuel`, maintained as `MAX_RETRIES - attempt`; `attempt` is the
source's counter.  On a `Retry`/`Reconnect` failure with retries left, the
counter is incremented first and the backoff is `50 * 2 ^ attempt`
milliseconds with the incremented counter, exactly as in the source
(`attempt += 1; let backoff = Duration::from_millis(50 * (1 << attempt))`). -/
def execute_with_retry_go {α : Type} (outcomes : Nat → Except ErrorKind α) :
    Nat → Nat → List Nat → Nat → RetryTrace α
  | attempt, fuel, sleeps, reconnects =>
    match outcomes attempt with
    | .ok v => ⟨.ok v, attempt + 1, sleeps, reconnects⟩
    | .error e =>
      match get_retry_strategy e with
      | .NoRetry => ⟨.error e, attempt + 1, sleeps, reconnects⟩
      | s =>
        match fuel with
        | 0 => ⟨.error e, attempt + 1, sleeps, reconnects⟩
        | fuel' + 1 =>
          execute_with_retry_go outcomes (attempt + 1) fuel'
            (sleeps ++ [50 * 2 ^ (attempt + 1)])
            (if s = RetryStrategy.Reconnect then reconnects + 1 else reconnects)

/-- `Database::execute_with_retry` from `src/court/database.rs`. -/
def execute_with_retry {α : Type} (outcomes : Nat → Except ErrorKind α) :
    RetryTrace α :=
  execute_with_retry_go outcomes 0 MAX_RETRIES [] 0

/-! ## Actor registry (`src/courts/mod.rs`) -/

/-- `COURT_NAME_REGEX` (`^[a-zA-Z0-9\-]{1,63}$`) as a decidable predicate. -/
def isValidCourtName (name : String) : Bool :=
  decide (1 ≤ name.length) && decide (name.length ≤ 63) &&
    name.data.all (fun c => c.isAlpha || c.isDigit || c == '-')

/-- The mailbox `Message` enum of `src/courts/mod.rs` (reply closures carry
no state that matters here and are dropped). -/
inductive CourtMessage where
  | update (force : Bool)
  | getSessions (date reference : String)
  | confirmSubscription (subscription_id : Int)
  | close
deriving DecidableEq, Repr

/-- A `Court` registry entry together with the state of the worker it refers
to: `aid` identifies the spawned worker task, `closed` says whether the
worker has exited (its mailbox no longer accepts messages), and `mailbox`
holds the messages enqueued so far. -/
structure Court where
  aid : Nat
  closed : Bool
  mailbox : List CourtMessage
deriving DecidableEq, Repr

/-- The registry state: the name-keyed map of `Courts.map` plus a counter
supplying fresh worker identities. -/
structure CourtsState where
  map : List (String × Court)
  nextId : Nat
deriving Repr

/-- `HashMap::insert`: adds or replaces the entry for `name`. -/
def insertCourt (m : List (String × Court)) (name : String) (c : Court) :
    List (String × Court) :=
  (name, c) :: m.filter (fun kv => kv.1 ≠ name)

/-- `UnboundedSender::send`: `none` models `Err(SendError(msg))` (the
receiver was dropped, the message is handed back and never enqueued);
`some` is the successful enqueue. -/
def Court.trySend (c : Court) (msg : CourtMessage) : Option Court :=
  if c.closed then none else some { c with mailbox := c.mailbox ++ [msg] }

/-- `CourtRef::create`: spawns a fresh worker and returns its handle.  The
spawned task itself is outside this state model; `freshClosed` is the
environment's choice of whether the fresh worker's channel is already
closed by the time the message is sent (the case handled by the source's
second `Err` branch). -/
def createCourt (st : CourtsState) (freshClosed : Bool) : Court × CourtsState :=
  (⟨st.nextId, freshClosed, []⟩, { st with nextId := st.nextId + 1 })

/-- What one `send_msg` call did: how many workers it created, which worker
(by `aid`) received the message, and whether the final give-up error was
logged. -/
structure SendReport where
  created : Nat
  deliveredTo : Option Nat
  errorLogged : Bool
deriving DecidableEq, Repr

/-- The shared tail of `CourtRef::send_msg`: create a fresh worker, try to
enqueue the message once, log an error if even that fails, and (re)place
the registry entry. -/
def sendMsgRecreate (st : CourtsState) (name : String) (msg : CourtMessage)
    (freshClosed : Bool) : CourtsState × SendReport :=
  let cs := createCourt st freshClosed
  match cs.1.trySend msg with
  | some court' =>
    ({ cs.2 with map := insertCourt cs.2.map name court' },
      ⟨1, some cs.1.aid, false⟩)
  | none =>
    ({ cs.2 with map := insertCourt cs.2.map name cs.1 }, ⟨1, none, true⟩)

/-- `CourtRef::send_msg` from `src/courts/mod.rs`. -/
def send_msg (st : CourtsState) (name : String) (msg : CourtMessage)
    (freshClosed : Bool) : CourtsState × SendReport :=
  match List.lookup name st.map with
  | some court =>
    match court.trySend msg with
    | some court' =>
      ({ st with map := insertCourt st.map name court' },
        ⟨0, some court.aid, false⟩)
    | none => sendMsgRecreate st name msg freshClosed
  | none => sendMsgRecreate st name msg freshClosed

/-! ## Worker update protocol (`src/courts/worker.rs` with the persistence
operations of `src/database.rs`, projected onto a single court)

The store state relevant to one court: the court row (`CourtMeta`), the
cached session rows, and the confirmed subscriptions for the court.
Database errors are not modelled — the store model is total, so every
`Result<_, DbError>` of the source comes back `Ok`; `none` below always
models a panic, never a database error. -/

/-- `CourtMeta` from `src/database.rs`. -/
structure CourtMeta where
  full_name : Option String
  last_update : Int
deriving DecidableEq, Repr

/-- The subscription fields used by `process_new_data`. -/
structure Subscription where
  chat_id : Int
  name : String
  reference_filter : String
deriving DecidableEq, Repr

/-- The store rows for one court. -/
structure DbCourtState where
  meta : Option CourtMeta
  sessions : List Session
  subscriptions : List Subscription
deriving Repr

/-- `Database::update_court_info` (`src/database.rs`): upserts the court row
with the given `full_name` and `last_update`; deletes and re-inserts the
session rows only when `schedule` is provided (`sessions` write is
all-or-nothing). -/
def update_court_info (db : DbCourtState) (last_update : Int)
    (full_name : Option String) (schedule : Option (List Session)) :
    DbCourtState :=
  { db with
    meta := some ⟨full_name, last_update⟩
    sessions := match schedule with | some s => s | none => db.sessions }

/-- `Database::get_sessions(name, None, date_filter)` projected onto the
court's cached rows. -/
def db_get_sessions (db : DbCourtState) (date_filter : Option Int) :
    List Session :=
  db.sessions.filter (fun s =>
    match date_filter with | none => true | some d => s.date == d)

/-- `CourtWorker::process_new_data`: reads the old sessions and the
confirmed subscriptions, and for each subscription whose `sessions_updated`
rendering is non-empty queues it (the queued `(chat_id, pages)` pairs are
returned, in subscription order).  `none` models a rendering panic. -/
def process_new_data (db : DbCourtState) (new_data : CourtData) :
    Option (List (Int × List MarkdownString)) := do
  let old_sessions := db.sessions
  let results ← db.subscriptions.mapM (fun sub => do
    let msgs ← sessions_updated old_sessions new_data.sessions
      new_data.full_name sub.name sub.reference_filter
    pure (sub.chat_id, msgs))
  pure (results.filter (fun r => !r.2.isEmpty))

/-- `CourtWorker::update`.  Ambient effects appear as parameters: `now` is
the `Utc::now()` consulted by `is_out_of_date`; `nowPre` is the
`Utc::now()` recorded into `last_update` *before* the scrape; `scrape` is
the scraper outcome (`none` = failure, which the source logs and turns into
`new_data = None`).  Returns the new store state, the returned meta and the
queued notifications; `none` models a panic. -/
def worker_update (db : DbCourtState) (now nowPre : Int)
    (force_update : Bool) (scrape : Option CourtData) :
    Option (DbCourtState × CourtMeta × List (Int × List MarkdownString)) :=
  let fetch : Option (DbCourtState × CourtMeta × List (Int × List MarkdownString)) := do
    let notifs ← match scrape with
      | some new_data => process_new_data db new_data
      | none => pure []
    let meta : CourtMeta := ⟨scrape.map (fun x => x.full_name), nowPre⟩
    let db' := update_court_info db nowPre meta.full_name
      (scrape.map (fun x => x.sessions))
    pure (db', meta, notifs)
  match db.meta with
  | some meta =>
    -- `!force_update && !is_out_of_date(...)` short-circuits: the staleness
    -- check (and its possible panic) is reached only when not forced.
    if force_update then fetch
    else
      match is_out_of_date now meta.last_update with
      | none => none
      | some stale => if stale then fetch else some (db, meta, [])
  | none => fetch

/-- `CourtWorker::get_court_data`: runs the update protocol unforced; a meta
with `full_name = None` (the website was not available) yields no court
data, otherwise the cached sessions are read back with the date filter. -/
def get_court_data (db : DbCourtState) (now nowPre : Int)
    (scrape : Option CourtData) (date_filter : Option Int) :
    Option (DbCourtState × Option CourtData × List (Int × List MarkdownString)) := do
  let r ← worker_update db now nowPre false scrape
  match r.2.1.full_name with
  | none => pure (r.1, none, r.2.2)
  | some full_name =>
    pure (r.1, some ⟨full_name, db_get_sessions r.1 date_filter⟩, r.2.2)

/-- The reply of `CourtWorker::handle_get_sessions` (the `"%d.%m.%Y"` date
parsing is modelled by handing over the parsed `date_filter` directly). -/
def handle_get_sessions_reply (db : DbCourtState) (now nowPre : Int)
    (scrape : Option CourtData) (date_filter : Option Int)
    (reference : String) : Option (List MarkdownString) := do
  let r ← get_court_data db now nowPre scrape date_filter
  list_sessions r.2.1 reference

/-! ## Specification-side glob semantics (for claim C7)

Relational semantics of the reference filter as the (amended) specification
words it: every pattern character other than `*` and `?` matches itself
literally, `?` matches exactly one character, `*` matches any (possibly
empty) run of characters, and the pattern is anchored at both ends (the
derivation must consume the whole string).  Faithful to the compiled
regex's default `.`-semantics, the characters consumed by `?` and `*`
exclude the newline. -/

inductive GlobSem : List Char → List Char → Prop where
  | nil : GlobSem [] []
  | lit {c : Char} {p s : List Char} :
      c ≠ '*' → c ≠ '?' → GlobSem p s → GlobSem (c :: p) (c :: s)
  | qmark {d : Char} {p s : List Char} :
      d ≠ '\n' → GlobSem p s → GlobSem ('?' :: p) (d :: s)
  | starEmpty {p s : List Char} : GlobSem p s → GlobSem ('*' :: p) s
  | starCons {d : Char} {p s : List Char} :
      d ≠ '\n' → GlobSem ('*' :: p) s → GlobSem ('*' :: p) (d :: s)

/-! ## Sample data used by the concrete test scenarios -/

/-- Sample session A. -/
def sesA : Session := ⟨19000, "09:00", "Zivilsache", "", "101", "AB-1", ""⟩

/-- Sample session B. -/
def sesB : Session :=
  ⟨19001, "10:00", "Strafsache", "X ./. Y", "102", "AB-2", "Hinweis"⟩

/-- Sample session C. -/
def sesC : Session := ⟨19002, "11:00", "Zivilsache", "", "103", "AB-3", ""⟩

/-! # Theorems -/

/-- C1: for every timestamp `last_update`, `is_out_of_date last_update`
returns `true` if and only if `last_update` is strictly before the most
recent 08:00 Europe/Berlin cutoff instant — yesterday's date at 08:00 local
time when the current Berlin local time-of-day is before 08:00, today's
date at 08:00 otherwise, converted through the zoned civil time to UTC
(`mostRecentCutoff`).  The hypothesis `is_out_of_date now last_update =
some b` states that the zoned conversion is single-valued (its failure
would be a panic in the source). -/
theorem is_out_of_date_iff_before_cutoff (now last_update : Int) (b : Bool)
    (h : is_out_of_date now last_update = some b) :
    ∃ c, mostRecentCutoff now = some c ∧ (b = true ↔ last_update < c) := by
  simp only [is_out_of_date, TRESHOLD_TIME] at h
  simp only [mostRecentCutoff]
  cases hE : localToUtcSingle
      ((if (berlinLocal now).emod 86400 < 8 * 3600 then
          (berlinLocal now).fdiv 86400 - 1
        else (berlinLocal now).fdiv 86400) * 86400 + 8 * 3600) with
  | none => rw [hE] at h; cases h
  | some c =>
    rw [hE] at h
    have hb : decide (last_update < c) = b := Option.some.inj h
    subst hb
    exact ⟨c, rfl, by simp⟩

/-- Witness for C1 at `now` = 2024-07-10 12:00:00 UTC (14:00 CEST) and
`last_update` = the Unix epoch: the cutoff is 2024-07-10 06:00:00 UTC
(08:00 CEST) and the reading is stale. -/
theorem is_out_of_date_iff_before_cutoff_witness :
    ∃ c, mostRecentCutoff 1720612800 = some c ∧ (true = true ↔ (0 : Int) < c) :=
  is_out_of_date_iff_before_cutoff 1720612800 0 true (by decide)

/-- Sanity of the Berlin timezone model at the 2024 DST transitions
(DST started 2024-03-31 01:00 UTC and ended 2024-10-27 01:00 UTC):
at 07:59 local on the spring-forward day the cutoff is the previous day's
08:00 CET (07:00 UTC); at 08:00 CEST it is that very instant; dually on
the fall-back day; and the zoned conversion is not single-valued at 02:30
local, which falls in the spring gap and is ambiguous in the fall. -/
theorem mostRecentCutoff_dst_examples :
    mostRecentCutoff 1711864740 = some 1711782000 ∧
    mostRecentCutoff 1711864800 = some 1711864800 ∧
    mostRecentCutoff 1730012340 = some 1729922400 ∧
    mostRecentCutoff 1730012400 = some 1730012400 ∧
    localToUtcSingle (19813 * 86400 + 2 * 3600 + 1800) = none ∧
    localToUtcSingle (20023 * 86400 + 2 * 3600 + 1800) = none ∧
    dstStartUtc 2024 = 1711846800 ∧ dstEndUtc 2024 = 1729990800 := by
  decide

/-- C3 counterexample: the claim says a parse error (malformed data) is
returned immediately with no retry and no backoff sleep, but
`get_retry_strategy` classifies `ParseError` (and `AuthenticationFailed`)
as `Reconnect`, so the operation is attempted 6 times with backoff sleeps
before the error surfaces. -/
theorem parse_error_is_retried :
    (execute_with_retry
        (fun _ => (Except.error ErrorKind.ParseError : Except ErrorKind Unit))).attempts = 6 ∧
    (execute_with_retry
        (fun _ => (Except.error ErrorKind.ParseError : Except ErrorKind Unit))).sleepsMs
      = [100, 200, 400, 800, 1600] ∧
    get_retry_strategy ErrorKind.ParseError = RetryStrategy.Reconnect ∧
    get_retry_strategy ErrorKind.AuthenticationFailed = RetryStrategy.Reconnect := by
  decide

/-- C3 (amended): a store-operation failure whose kind is classified
`NoRetry` — any kind other than the six transient-server-side kinds and
the four connection-level kinds (which include `ParseError` and
`AuthenticationFailed`, so those two are retried with reconnection, not
returned immediately) — makes `execute_with_retry` return the error
immediately: exactly one attempt, no backoff sleep, no reconnect. -/
theorem execute_with_retry_noretry_immediate {α : Type}
    (outcomes : Nat → Except ErrorKind α) (e : ErrorKind)
    (h0 : outcomes 0 = Except.error e)
    (hs : get_retry_strategy e = RetryStrategy.NoRetry) :
    execute_with_retry outcomes = ⟨Except.error e, 1, [], 0⟩ := by
  simp [execute_with_retry, execute_with_retry_go, h0, hs]

/-- Witness for C3 (amended) at the `ResponseError` kind, which falls into
the catch-all `NoRetry` arm. -/
theorem execute_with_retry_noretry_immediate_witness :
    execute_with_retry
        (fun _ => (Except.error ErrorKind.ResponseError : Except ErrorKind Unit))
      = ⟨Except.error ErrorKind.ResponseError, 1, [], 0⟩ :=
  execute_with_retry_noretry_immediate _ ErrorKind.ResponseError rfl rfl

/-- C4: a store operation whose every attempt fails with a
`Retry`-classified error is attempted exactly 6 times (1 initial + 5
retries = `MAX_RETRIES`), with backoff sleeps of `50 * 2 ^ attempt`
milliseconds between attempts (the source increments `attempt` before
computing the backoff, so the sleeps are `50·2¹ … 50·2⁵` ms), and the
error then surfaces to the caller. -/
theorem execute_with_retry_retry_exhaustion {α : Type}
    (outcomes : Nat → Except ErrorKind α) (e : ErrorKind)
    (h : ∀ k, outcomes k = Except.error e)
    (hs : get_retry_strategy e = RetryStrategy.Retry) :
    execute_with_retry outcomes =
      ⟨Except.error e, 6,
        [50 * 2 ^ 1, 50 * 2 ^ 2, 50 * 2 ^ 3, 50 * 2 ^ 4, 50 * 2 ^ 5], 0⟩ := by
  simp [execute_with_retry, MAX_RETRIES, execute_with_retry_go, h, hs]

/-- Witness for C4 at the always-failing `TryAgain` outcome. -/
theorem execute_with_retry_retry_exhaustion_witness :
    execute_with_retry
        (fun _ => (Except.error ErrorKind.TryAgain : Except ErrorKind Unit))
      = ⟨Except.error ErrorKind.TryAgain, 6,
          [50 * 2 ^ 1, 50 * 2 ^ 2, 50 * 2 ^ 3, 50 * 2 ^ 4, 50 * 2 ^ 5], 0⟩ :=
  execute_with_retry_retry_exhaustion _ ErrorKind.TryAgain (fun _ => rfl) rfl

/-- C9 is violated by the code: `Paginator::new` starts the first page's
running length at `0` instead of `initial_page_len()` (the reserved
suffix budget used for every later page), so the first page can exceed the
character limit once the numbering suffix is appended.  With an item limit
of 2, a character limit of 30, and items of parsed length 27 and 1, the two
rendered pages have parsed lengths 44 and 18: the first page (27 + 2 for
the join + 15 for `[Nachricht 1/2]`) exceeds the limit of 30, while the
second page — whose budget did reserve the suffix space — respects it. -/
theorem paginator_first_page_overflow :
    ((((Paginator.new 2 30 (MarkdownString.fromStr "\n\n")).push
          (MarkdownString.fromStr (String.mk (List.replicate 27 'x')))).1.push
          (MarkdownString.fromStr "y")).1.get_pages.map
        (fun m => m.lenParsed)) = [44, 18] ∧
    ¬ 44 < 30 ∧ 18 < 30 := by
  decide

/-- Looking up a name just inserted by `insertCourt` finds the new entry. -/
theorem lookup_insertCourt (m : List (String × Court)) (name : String) (c : Court) :
    List.lookup name (insertCourt m name c) = some c := by
  simp [insertCourt, List.lookup]

/-- C5: sending through the registry to a valid court name whose mapped
worker's mailbox is closed creates exactly one fresh worker, re-enqueues
the original message once to it, and replaces the registry entry with the
fresh worker; the message is never delivered to the dead worker (its
`aid` never receives it), and if the re-enqueue also fails
(`freshClosed = true`) the message is dropped with an error log rather
than retried again (still exactly one creation, nothing delivered);
`hvalid` records the claim's premise that the name is valid (`Courts::get`
hands out a `CourtRef` only for names accepted by `COURT_NAME_REGEX`). -/
theorem send_msg_dead_actor_recreates (st : CourtsState) (name : String)
    (msg : CourtMessage) (freshClosed : Bool) (c : Court)
    (hvalid : isValidCourtName name = true)
    (hfound : List.lookup name st.map = some c)
    (hclosed : c.closed = true)
    (haid : c.aid < st.nextId) :
    (send_msg st name msg freshClosed).2.created = 1 ∧
    List.lookup name (send_msg st name msg freshClosed).1.map
      = some ⟨st.nextId, freshClosed, if freshClosed then [] else [msg]⟩ ∧
    (freshClosed = false →
      (send_msg st name msg freshClosed).2.deliveredTo = some st.nextId ∧
      (send_msg st name msg freshClosed).2.errorLogged = false) ∧
    (freshClosed = true →
      (send_msg st name msg freshClosed).2.deliveredTo = none ∧
      (send_msg st name msg freshClosed).2.errorLogged = true) ∧
    (send_msg st name msg freshClosed).2.deliveredTo ≠ some c.aid := by
  have hsend : send_msg st name msg freshClosed
      = sendMsgRecreate st name msg freshClosed := by
    simp [send_msg, hfound, Court.trySend, hclosed]
  rw [hsend]
  cases freshClosed with
  | false =>
    have e : sendMsgRecreate st name msg false
        = (⟨insertCourt st.map name ⟨st.nextId, false, [msg]⟩, st.nextId + 1⟩,
            ⟨1, some st.nextId, false⟩) := by
      simp [sendMsgRecreate, createCourt, Court.trySend]
    rw [e]
    refine ⟨rfl, lookup_insertCourt st.map name _, fun _ => ⟨rfl, rfl⟩, ?_, ?_⟩
    · intro h; exact absurd h (by simp)
    · intro h
      have h2 : st.nextId = c.aid := Option.some.inj h
      omega
  | true =>
    have e : sendMsgRecreate st name msg true
        = (⟨insertCourt st.map name ⟨st.nextId, true, []⟩, st.nextId + 1⟩,
            ⟨1, none, true⟩) := by
      simp [sendMsgRecreate, createCourt, Court.trySend]
    rw [e]
    refine ⟨rfl, lookup_insertCourt st.map name _, ?_, fun _ => ⟨rfl, rfl⟩, ?_⟩
    · intro h; exact absurd h (by simp)
    · simp

/-- Witness for C5: registry with a dead worker (aid 0) for `vg-koeln`;
sending `Update` recreates worker 1 and delivers the message to it. -/
theorem send_msg_dead_actor_recreates_witness :
    (send_msg ⟨[("vg-koeln", ⟨0, true, []⟩)], 1⟩ "vg-koeln"
        (CourtMessage.update false) false).2.created = 1 ∧
    List.lookup "vg-koeln" (send_msg ⟨[("vg-koeln", ⟨0, true, []⟩)], 1⟩
        "vg-koeln" (CourtMessage.update false) false).1.map
      = some ⟨1, false, [CourtMessage.update false]⟩ ∧
    (false = false →
      (send_msg ⟨[("vg-koeln", ⟨0, true, []⟩)], 1⟩ "vg-koeln"
          (CourtMessage.update false) false).2.deliveredTo = some 1 ∧
      (send_msg ⟨[("vg-koeln", ⟨0, true, []⟩)], 1⟩ "vg-koeln"
          (CourtMessage.update false) false).2.errorLogged = false) ∧
    (false = true →
      (send_msg ⟨[("vg-koeln", ⟨0, true, []⟩)], 1⟩ "vg-koeln"
          (CourtMessage.update false) false).2.deliveredTo = none ∧
      (send_msg ⟨[("vg-koeln", ⟨0, true, []⟩)], 1⟩ "vg-koeln"
          (CourtMessage.update false) false).2.errorLogged = true) ∧
    (send_msg ⟨[("vg-koeln", ⟨0, true, []⟩)], 1⟩ "vg-koeln"
        (CourtMessage.update false) false).2.deliveredTo ≠ some 0 :=
  send_msg_dead_actor_recreates ⟨[("vg-koeln", ⟨0, true, []⟩)], 1⟩ "vg-koeln"
    (CourtMessage.update false) false ⟨0, true, []⟩ (by decide) (by decide)
    rfl (by decide)

/-- C6: when the update protocol runs (no fresh cache hit: the meta row is
missing, or the update is forced, or the cached reading is stale) and the
scraper call fails, `update` returns normally (no panic, and the store
model is total so the source's return value is `Ok(meta)`); the cached
session rows are left untouched (`update_court_info` receives no
`schedule`, so no session delete or insert runs — the `sessions` field of
the store state is unchanged); no notification is queued; and the newly
persisted meta has `full_name = None` and `last_update = nowPre`, the
timestamp taken before the fetch began. -/
theorem update_scrape_failure (db : DbCourtState) (now nowPre : Int)
    (force : Bool)
    (hrun : db.meta = none ∨ force = true ∨
      ∃ m, db.meta = some m ∧ is_out_of_date now m.last_update = some true) :
    worker_update db now nowPre force none =
      some ({ db with meta := some ⟨none, nowPre⟩ }, ⟨none, nowPre⟩, []) := by
  rcases hrun with h | h | ⟨m, hm, hst⟩
  · simp [worker_update, h, update_court_info]
  · cases hdb : db.meta with
    | none => simp [worker_update, hdb, update_court_info]
    | some m => simp [worker_update, hdb, h, update_court_info]
  · cases force with
    | false => simp [worker_update, hm, hst, update_court_info]
    | true => simp [worker_update, hm, update_court_info]

/-- Witness for C6: a stale cached meta, a failing scrape; the sessions
survive, the meta records `full_name = none` and the pre-fetch time. -/
theorem update_scrape_failure_witness :
    worker_update ⟨some ⟨some "Amtsgericht", 0⟩, [sesA], []⟩ 1720612800
        1720612900 false none
      = some (⟨some ⟨none, 1720612900⟩, [sesA], []⟩, ⟨none, 1720612900⟩, []) :=
  update_scrape_failure ⟨some ⟨some "Amtsgericht", 0⟩, [sesA], []⟩ 1720612800
    1720612900 false
    (Or.inr (Or.inr ⟨⟨some "Amtsgericht", 0⟩, rfl, by decide⟩))

/-- C10: when the stored meta has `full_name = None` (the last scrape
failed) and the cached reading is not yet stale (so the unforced update
protocol inside `GetSessions` keeps it), the `GetSessions` reply is exactly
the fixed unavailability message — the previously cached sessions are
never rendered, whatever they are and whatever the filters are — while the
store state (including the cached session rows) is returned unchanged, so
the history stays in the store. -/
theorem get_sessions_unavailable (db : DbCourtState) (now nowPre : Int)
    (scrape : Option CourtData) (date_filter : Option Int)
    (reference : String) (m : CourtMeta)
    (hmeta : db.meta = some m)
    (hfn : m.full_name = none)
    (hfresh : is_out_of_date now m.last_update = some false) :
    handle_get_sessions_reply db now nowPre scrape date_filter reference
      = some [MarkdownString.fromStr
          "Leider sind keine Informationen f√ºr dieses Gericht verf√ºgbar."] ∧
    get_court_data db now nowPre scrape date_filter = some (db, none, []) := by
  have hup : worker_update db now nowPre false scrape = some (db, m, []) := by
    simp [worker_update, hmeta, hfresh]
  have hgc : get_court_data db now nowPre scrape date_filter
      = some (db, none, []) := by
    simp [get_court_data, hup, hfn]
  exact ⟨by simp [handle_get_sessions_reply, hgc, list_sessions], hgc⟩

/-- Witness for C10: the store still caches `sesA`, but with
`full_name = none` the reply is the fixed message and the state is
unchanged. -/
theorem get_sessions_unavailable_witness :
    handle_get_sessions_reply ⟨some ⟨none, 1720612800⟩, [sesA], []⟩
        1720612800 1720612900 none none "*"
      = some [MarkdownString.fromStr
          "Leider sind keine Informationen f√ºr dieses Gericht verf√ºgbar."] ∧
    get_court_data ⟨some ⟨none, 1720612800⟩, [sesA], []⟩ 1720612800
        1720612900 none none
      = some (⟨some ⟨none, 1720612800⟩, [sesA], []⟩, none, []) :=
  get_sessions_unavailable ⟨some ⟨none, 1720612800⟩, [sesA], []⟩ 1720612800
    1720612900 none none "*" ⟨none, 1720612800⟩ rfl rfl (by decide)

/-- The fuel-indexed matcher agrees with the relational glob semantics
whenever the fuel exceeds the combined length of pattern and string (every
step consumes at least one character of one of them). -/
theorem globMatchFuel_iff : ∀ (fuel : Nat) (p s : List Char),
    p.length + s.length < fuel →
    (globMatchFuel fuel p s = true ↔ GlobSem p s) := by
  intro fuel
  induction fuel with
  | zero => intro p s h; omega
  | succ fuel ih =>
    intro p s hfuel
    cases p with
    | nil =>
      cases s with
      | nil =>
        simp only [globMatchFuel]
        exact ⟨fun _ => GlobSem.nil, fun _ => trivial⟩
      | cons d s2 =>
        simp only [globMatchFuel]
        constructor
        · intro h; cases h
        · intro hg; cases hg
    | cons c p2 =>
      by_cases hstar : c = '*'
      · subst hstar
        cases s with
        | nil =>
          simp only [globMatchFuel]
          rw [ih p2 [] (by simp at hfuel ⊢; omega)]
          constructor
          · exact GlobSem.starEmpty
          · intro hg
            cases hg with
            | starEmpty hg2 => exact hg2
        | cons d s2 =>
          simp only [globMatchFuel, Bool.or_eq_true, Bool.and_eq_true,
            decide_eq_true_eq]
          rw [ih p2 (d :: s2) (by simp at hfuel ⊢; omega),
            ih ('*' :: p2) s2 (by simp at hfuel ⊢; omega)]
          constructor
          · rintro (hg | ⟨hd, hg⟩)
            · exact GlobSem.starEmpty hg
            · exact GlobSem.starCons hd hg
          · intro hg
            cases hg with
            | lit hc1 hc2 hg2 => exact absurd rfl hc1
            | starEmpty hg2 => exact Or.inl hg2
            | starCons hd hg2 => exact Or.inr ⟨hd, hg2⟩
      · by_cases hq : c = '?'
        · subst hq
          cases s with
          | nil =>
            simp only [globMatchFuel]
            constructor
            · intro h; cases h
            · intro hg; cases hg
          | cons d s2 =>
            simp only [globMatchFuel, Bool.and_eq_true, decide_eq_true_eq]
            rw [ih p2 s2 (by simp at hfuel ⊢; omega)]
            constructor
            · rintro ⟨hd, hg⟩; exact GlobSem.qmark hd hg
            · intro hg
              cases hg with
              | lit hc1 hc2 hg2 => exact absurd rfl hc2
              | qmark hd hg2 => exact ⟨hd, hg2⟩
        · cases s with
          | nil =>
            have e : globMatchFuel (fuel + 1) (c :: p2) [] = false := by
              simp [globMatchFuel, hstar, hq]
            rw [e]
            constructor
            · intro h; cases h
            · intro hg; cases hg; simp_all
          | cons d s2 =>
            have e : globMatchFuel (fuel + 1) (c :: p2) (d :: s2)
                = (c == d && globMatchFuel fuel p2 s2) := by
              simp [globMatchFuel, hstar, hq]
            rw [e, Bool.and_eq_true, beq_iff_eq,
              ih p2 s2 (by simp at hfuel ⊢; omega)]
            constructor
            · rintro ⟨rfl, hg⟩; exact GlobSem.lit hstar hq hg
            · intro hg
              cases hg with
              | lit hc1 hc2 hg2 => exact ⟨rfl, hg2⟩
              | qmark hd hg2 => exact absurd rfl hq
              | starEmpty hg2 => exact absurd rfl hstar
              | starCons hd hg2 => exact absurd rfl hstar

/-- C7 counterexample: the claim states that `?` matches any single
character, but the compiled pattern (regex `.` under default flags) does
not match a newline: the filter `"?"` rejects the single-character
reference `"\n"`. -/
theorem reference_filter_claim_counterexample :
    referenceMatches "?" "\n" = false := by decide

/-- C7 (amended): the compiled pattern is anchored at both ends and matches
a session reference exactly, with `*` matching any run of characters none
of which is a newline, `?` matching any single character other than a
newline, and every other character matched literally (regex metacharacters
escaped); in particular `AB*12?` matches `AB-x-12Z` and does not match
`AB-x-13Z`. -/
theorem referenceFilter_glob_semantics :
    (∀ (pattern reference : String),
        referenceMatches pattern reference = true ↔
          GlobSem pattern.data reference.data) ∧
    referenceMatches "AB*12?" "AB-x-12Z" = true ∧
    referenceMatches "AB*12?" "AB-x-13Z" = false := by
  refine ⟨fun pattern reference => ?_, by decide, by decide⟩
  exact globMatchFuel_iff _ _ _ (Nat.lt_succ_self _)

/-- `get_pages` always yields the closed pages plus the running page, so at
least one page. -/
theorem Paginator.get_pages_ne_nil (p : Paginator) : p.get_pages ≠ [] := by
  intro h
  have hlen : p.get_pages.length = p.pages.length + 1 := by
    simp [Paginator.get_pages]
  rw [h] at hlen
  simp at hlen

/-- A header-then-items rendering through the paginator never produces the
empty page list: a panic gives `none` and a successful run gives at least
one page. -/
theorem render_ne_some_nil (base : Paginator) (hdr : MarkdownString)
    (items : List MarkdownString) :
    (do
      let p ← pushUnwrap base hdr
      let p ← items.foldlM pushOrPlaceholder p
      pure p.get_pages) ≠ some ([] : List MarkdownString) := by
  cases hp : pushUnwrap base hdr with
  | none => simp [hp]
  | some p =>
    cases hq : items.foldlM pushOrPlaceholder p with
    | none => simp [hp, hq]
    | some q =>
      simp only [hp, hq, Option.bind_eq_bind, Option.some_bind]
      intro h
      exact Paginator.get_pages_ne_nil q (Option.some.inj h)

set_option maxRecDepth 20000 in
/-- C2: the notification built by `sessions_updated` lists exactly the new
sessions that match the subscription's reference filter and are not members
(by value equality on all fields) of the old-session set, and no
notification is produced when that subset is empty.  Concretely: a session
is in the rendered subset iff it is a new session matching the filter and
outside the old set; the result is the empty notification exactly when the
subset is empty; and in the test scenario, old `{A,B}` against new
`{A,B,C}` under the match-all filter renders exactly `{C}` (one page
holding the header and `session_info C` alone), while new `{A,B}` with no
change yields nothing. -/
theorem sessions_updated_diff :
    (∀ (old_sessions new_sessions : List Session) (f : String) (s : Session),
        s ∈ sessions_updated_items old_sessions new_sessions f ↔
          s ∈ new_sessions ∧ referenceMatches f s.reference = true ∧
            s ∉ old_sessions) ∧
    (∀ (old_sessions new_sessions : List Session) (fn sn f : String),
        sessions_updated old_sessions new_sessions fn sn f = some [] ↔
          sessions_updated_items old_sessions new_sessions f = []) ∧
    sessions_updated_items [sesA, sesB] [sesA, sesB, sesC] "*" = [sesC] ∧
    sessions_updated [sesA, sesB] [sesA, sesB, sesC] "Amtsgericht" "abo" "*"
      = some [MarkdownString.join
          [sessions_updated_header "Amtsgericht" "abo" 1, session_info sesC]
          (MarkdownString.fromStr "\n\n")] ∧
    sessions_updated [sesA, sesB] [sesA, sesB] "Amtsgericht" "abo" "*"
      = some [] := by
  refine ⟨?_, ?_, by decide, by decide, by decide⟩
  · intro old_sessions new_sessions f s
    simp [sessions_updated_items, List.mem_filter]
  · intro old_sessions new_sessions fn sn f
    cases hi : sessions_updated_items old_sessions new_sessions f with
    | nil => simp [sessions_updated, hi]
    | cons x xs =>
      unfold sessions_updated
      rw [hi]
      rw [if_neg (by simp)]
      exact iff_of_false (render_ne_some_nil _ _ _) (by simp)

/-- C8: for a paginator with item limit 2 and a character limit large
enough for any 2 items (together with the join separators and the reserved
suffix budget of 19 characters), pushing 5 items produces exactly 3 pages;
the first two pages hold exactly 2 items each and the last holds the fifth
item, each page carrying the correctly numbered `[Nachricht k/3]` suffix;
pushing a single item instead yields one page with no suffix at all. -/
theorem paginator_five_items_three_pages
    (sep i1 i2 i3 i4 i5 : MarkdownString) (climit : Nat)
    (hfit : ∀ a ∈ [i1, i2, i3, i4, i5], ∀ b ∈ [i1, i2, i3, i4, i5],
      19 + sep.lenParsed + a.lenParsed + sep.lenParsed + b.lenParsed < climit) :
    ((((((Paginator.new 2 climit sep).push i1).1.push i2).1.push i3).1.push
        i4).1.push i5).1.pages = [[i1, i2], [i3, i4]] ∧
    ((((((Paginator.new 2 climit sep).push i1).1.push i2).1.push i3).1.push
        i4).1.push i5).1.current_page = [i5] ∧
    ((((((Paginator.new 2 climit sep).push i1).1.push i2).1.push i3).1.push
        i4).1.push i5).1.get_pages
      = [((MarkdownString.join [i1, i2] sep).append sep).append
            (Paginator.page_nr 1 3),
          ((MarkdownString.join [i3, i4] sep).append sep).append
            (Paginator.page_nr 2 3),
          ((MarkdownString.join [i5] sep).append sep).append
            (Paginator.page_nr 3 3)] ∧
    ((Paginator.new 2 climit sep).push i1).1.get_pages
      = [MarkdownString.join [i1] sep] := by
  have f11 := hfit i1 (by simp) i1 (by simp)
  have f12 := hfit i1 (by simp) i2 (by simp)
  have f33 := hfit i3 (by simp) i3 (by simp)
  have f34 := hfit i3 (by simp) i4 (by simp)
  have f55 := hfit i5 (by simp) i5 (by simp)
  have hnew : Paginator.new 2 climit sep = ⟨[], [], 0, 19, 2, climit, sep⟩ := rfl
  have h1 : (⟨[], [], 0, 19, 2, climit, sep⟩ : Paginator).push i1
      = (⟨[], [i1], sep.lenParsed + i1.lenParsed, 19, 2, climit, sep⟩, true) := by
    have hc : sep.lenParsed + i1.lenParsed < climit := by omega
    simp [Paginator.push, Paginator.try_push, Paginator.current_page_len_with, hc]
  have h2 : (⟨[], [i1], sep.lenParsed + i1.lenParsed, 19, 2, climit, sep⟩ :
        Paginator).push i2
      = (⟨[], [i1, i2],
          sep.lenParsed + i1.lenParsed + sep.lenParsed + i2.lenParsed,
          19, 2, climit, sep⟩, true) := by
    have hc : sep.lenParsed + i1.lenParsed + sep.lenParsed + i2.lenParsed
        < climit := by omega
    simp [Paginator.push, Paginator.try_push, Paginator.current_page_len_with, hc]
  have h3 : (⟨[], [i1, i2],
        sep.lenParsed + i1.lenParsed + sep.lenParsed + i2.lenParsed,
        19, 2, climit, sep⟩ : Paginator).push i3
      = (⟨[[i1, i2]], [i3], 19 + sep.lenParsed + i3.lenParsed,
          19, 2, climit, sep⟩, true) := by
    have hc : 19 + sep.lenParsed + i3.lenParsed < climit := by omega
    simp [Paginator.push, Paginator.try_push, Paginator.current_page_len_with,
      Paginator.initial_page_len, hc]
  have h4 : (⟨[[i1, i2]], [i3], 19 + sep.lenParsed + i3.lenParsed,
        19, 2, climit, sep⟩ : Paginator).push i4
      = (⟨[[i1, i2]], [i3, i4],
          19 + sep.lenParsed + i3.lenParsed + sep.lenParsed + i4.lenParsed,
          19, 2, climit, sep⟩, true) := by
    have hc : 19 + sep.lenParsed + i3.lenParsed + sep.lenParsed + i4.lenParsed
        < climit := by omega
    simp [Paginator.push, Paginator.try_push, Paginator.current_page_len_with, hc]
  have h5 : (⟨[[i1, i2]], [i3, i4],
        19 + sep.lenParsed + i3.lenParsed + sep.lenParsed + i4.lenParsed,
        19, 2, climit, sep⟩ : Paginator).push i5
      = (⟨[[i1, i2], [i3, i4]], [i5], 19 + sep.lenParsed + i5.lenParsed,
          19, 2, climit, sep⟩, true) := by
    have hc : 19 + sep.lenParsed + i5.lenParsed < climit := by omega
    simp [Paginator.push, Paginator.try_push, Paginator.current_page_len_with,
      Paginator.initial_page_len, hc]
  have g1 : ((Paginator.new 2 climit sep).push i1).1
      = ⟨[], [i1], sep.lenParsed + i1.lenParsed, 19, 2, climit, sep⟩ := by
    rw [hnew, h1]
  have g2 : (((Paginator.new 2 climit sep).push i1).1.push i2).1
      = ⟨[], [i1, i2],
          sep.lenParsed + i1.lenParsed + sep.lenParsed + i2.lenParsed,
          19, 2, climit, sep⟩ := by
    rw [g1, h2]
  have g3 : ((((Paginator.new 2 climit sep).push i1).1.push i2).1.push i3).1
      = ⟨[[i1, i2]], [i3], 19 + sep.lenParsed + i3.lenParsed,
          19, 2, climit, sep⟩ := by
    rw [g2, h3]
  have g4 : (((((Paginator.new 2 climit sep).push i1).1.push i2).1.push
        i3).1.push i4).1
      = ⟨[[i1, i2]], [i3, i4],
          19 + sep.lenParsed + i3.lenParsed + sep.lenParsed + i4.lenParsed,
          19, 2, climit, sep⟩ := by
    rw [g3, h4]
  have g5 : ((((((Paginator.new 2 climit sep).push i1).1.push i2).1.push
        i3).1.push i4).1.push i5).1
      = ⟨[[i1, i2], [i3, i4]], [i5], 19 + sep.lenParsed + i5.lenParsed,
          19, 2, climit, sep⟩ := by
    rw [g4, h5]
  refine ⟨by rw [g5], by rw [g5], ?_, ?_⟩
  · rw [g5]
    rfl
  · rw [g1]
    rfl

/-- Witness for C8 with five two-character items, the production separator
and the production character limit 4096. -/
theorem paginator_five_items_three_pages_witness :
    ((((((Paginator.new 2 4096 (MarkdownString.fromStr "\n\n")).push
            (MarkdownString.fromStr "i1")).1.push
            (MarkdownString.fromStr "i2")).1.push
            (MarkdownString.fromStr "i3")).1.push
            (MarkdownString.fromStr "i4")).1.push
            (MarkdownString.fromStr "i5")).1.pages
      = [[MarkdownString.fromStr "i1", MarkdownString.fromStr "i2"],
          [MarkdownString.fromStr "i3", MarkdownString.fromStr "i4"]] ∧
    ((((((Paginator.new 2 4096 (MarkdownString.fromStr "\n\n")).push
            (MarkdownString.fromStr "i1")).1.push
            (MarkdownString.fromStr "i2")).1.push
            (MarkdownString.fromStr "i3")).1.push
            (MarkdownString.fromStr "i4")).1.push
            (MarkdownString.fromStr "i5")).1.current_page
      = [MarkdownString.fromStr "i5"] ∧
    ((((((Paginator.new 2 4096 (MarkdownString.fromStr "\n\n")).push
            (MarkdownString.fromStr "i1")).1.push
            (MarkdownString.fromStr "i2")).1.push
            (MarkdownString.fromStr "i3")).1.push
            (MarkdownString.fromStr "i4")).1.push
            (MarkdownString.fromStr "i5")).1.get_pages
      = [((MarkdownString.join
              [MarkdownString.fromStr "i1", MarkdownString.fromStr "i2"]
              (MarkdownString.fromStr "\n\n")).append
            (MarkdownString.fromStr "\n\n")).append (Paginator.page_nr 1 3),
          ((MarkdownString.join
              [MarkdownString.fromStr "i3", MarkdownString.fromStr "i4"]
              (MarkdownString.fromStr "\n\n")).append
            (MarkdownString.fromStr "\n\n")).append (Paginator.page_nr 2 3),
          ((MarkdownString.join [MarkdownString.fromStr "i5"]
              (MarkdownString.fromStr "\n\n")).append
            (MarkdownString.fromStr "\n\n")).append (Paginator.page_nr 3 3)] ∧
    ((Paginator.new 2 4096 (MarkdownString.fromStr "\n\n")).push
        (MarkdownString.fromStr "i1")).1.get_pages
      = [MarkdownString.join [MarkdownString.fromStr "i1"]
          (MarkdownString.fromStr "\n\n")] :=
  paginator_five_items_three_pages (MarkdownString.fromStr "\n\n")
    (MarkdownString.fromStr "i1") (MarkdownString.fromStr "i2")
    (MarkdownString.fromStr "i3") (MarkdownString.fromStr "i4")
    (MarkdownString.fromStr "i5") 4096 (by decide)

end SitzungsterminBot
